import Mathlib

/-!
Shallow embedding of the hybrid quantum-classical forecasting engine in
`src/quantum_service/hybrid_lstm.py` (classes `QuantumVariationalLayer`,
`HybridLSTM`, `QuantumLSTMForecaster`), together with theorems settling the
specification claims about it.

Modelling conventions:
* Python floats are embedded as real numbers (`ℝ`); no floating-point
  rounding is modelled.
* A pandas `DataFrame` is a list of column names plus a list of rows.
* PyTorch tensors of shape `[N, L, F]` are lists of windows, a window being a
  list of rows, a row a list of scalars.
* External-library numerics that the source calls but does not define
  (sklearn's `StandardScaler`, torch's random weight initialisation and
  gradient steps, qiskit's expectation-value estimation) are modelled at
  their documented interfaces; each such definition carries a comment saying
  exactly what is modelled.
* Python exceptions surface as `Except ForecastError`.
-/

namespace QLSTM

/-- Window of `sequence_length` rows, each row a feature vector (one sample
of the tensor shape `[L, F]`). -/
abbrev Window := List (List ℝ)

/-! ## Variational Unit: `QuantumVariationalLayer` (hybrid_lstm.py lines 35-121) -/

/-- Embeds `QuantumVariationalLayer.__init__` state: `input_size`,
`quantum_enabled` (after the `and QUANTUM_AVAILABLE` conjunction), and the
classical fallback `nn.Linear(input_size, input_size)` weights, present when
the layer is not quantum-enabled.  `n_qubits = min(4, input_size)` is the
derived field below. -/
structure QuantumVariationalLayer where
  input_size : ℕ
  quantum_enabled : Bool
  weight : List (List ℝ)
  bias : List ℝ

/-- Source line 43: `self.n_qubits = min(4, input_size)`. -/
def QuantumVariationalLayer.n_qubits (l : QuantumVariationalLayer) : ℕ :=
  min 4 l.input_size

/-- Dot product of two vectors, the row-by-vector product inside
`nn.Linear`. -/
def dot (a b : List ℝ) : ℝ := (List.zipWith (fun u v => u * v) a b).sum

/-- Classical execution path of `forward` (line 94):
`torch.tanh(self.classical_layer(x))`, i.e. `tanh (W·x + b)` applied to every
output channel of the affine `nn.Linear(input_size, input_size)` map.  One
output channel per (row, bias) pair of the linear layer. -/
noncomputable def classicalForward (w : List (List ℝ)) (b : List ℝ) (x : List ℝ) : List ℝ :=
  List.zipWith (fun row bi => Real.tanh (dot row x + bi)) w b

/-- Expectation value of the Pauli-Z observable on qubit `j` after the
circuit built in `_init_quantum_circuit` (lines 52-68) is run with rotation
angles taken from the input vector (`params_values = x[i, :2*n_qubits]`, the
first `n_qubits` entries feeding the `ry` gates and the next `n_qubits` the
`rz` gates), evaluated exactly as qiskit's state-vector `Estimator` does.

Derivation from the source circuit: qubit `i` starts in `|0⟩` and receives
`RY(x i)` then `RZ(x (n+i))`, giving the product state whose qubit `i` has
`⟨Z_i⟩ = cos (x i)` (the `RZ` phase does not change Z expectations).  The
entangling chain `CX(0,1), CX(1,2), …` (lines 63-64) pulls the observable
`Z_j` back to the product `Z_0 ⊗ ⋯ ⊗ Z_j` (Heisenberg picture:
`CX(c,t)† (Z on t) CX(c,t) = Z_c Z_t` and `CX` fixes `Z_c`), so the measured
expectation on qubit `j` is the product of the first `j+1` cosines of the
`ry` angles. -/
noncomputable def zExpectation (x : List ℝ) (j : ℕ) : ℝ :=
  ((x.take (j + 1)).map Real.cos).prod

/-- Quantum execution path of `forward` (lines 96-118): one output channel
per qubit, channel `j` holding the Z expectation on qubit `j`; the output is
`torch.zeros_like(x[:, :self.n_qubits])` filled in, so it has exactly
`n_qubits` channels. -/
noncomputable def quantumForward (n : ℕ) (x : List ℝ) : List ℝ :=
  (List.range n).map (zExpectation x)

/-- Embeds `QuantumVariationalLayer.forward` (lines 91-121) on one sample:
the classical path when quantum is disabled, otherwise the quantum path
(whose per-sample exception fallback `torch.tanh(x[i, :self.n_qubits])` is
likewise bounded by `tanh`; the non-exceptional path is modelled). -/
noncomputable def QuantumVariationalLayer.forward
    (l : QuantumVariationalLayer) (x : List ℝ) : List ℝ :=
  if l.quantum_enabled then quantumForward l.n_qubits x
  else classicalForward l.weight l.bias x

/-! ## Feature normalisation: sklearn `StandardScaler` as used by `prepare_data` -/

/-- Per-feature normalisation state (sklearn `StandardScaler`): one mean and
one scale per feature column.  Modelled from the library the source calls:
`fit` stores the column means and the column standard deviations,
`transform` maps `x ↦ (x - mean) / scale`.  (sklearn additionally replaces a
zero scale by 1; no claim here depends on that corner, and on the fitted
data itself both conventions produce identical output, so it is omitted.) -/
structure StandardScaler where
  mean : List ℝ
  scale : List ℝ

/-- Mean of column `j` of a row-major matrix (missing entries read as 0;
rows produced by `selectFeatures` always have full width). -/
noncomputable def colMean (rows : List (List ℝ)) (j : ℕ) : ℝ :=
  (rows.map (fun r => r.getD j 0)).sum / rows.length

/-- Population standard deviation of column `j` (what sklearn's
`StandardScaler` uses). -/
noncomputable def colStd (rows : List (List ℝ)) (j : ℕ) : ℝ :=
  Real.sqrt ((rows.map (fun r => (r.getD j 0 - colMean rows j) ^ 2)).sum / rows.length)

/-- `StandardScaler().fit(rows)`: per-column mean and standard deviation,
one pair per column of the (rectangular) selected-feature matrix.  sklearn's
`fit` additionally refuses an empty matrix (`ValueError: Found array with 0
sample(s)`); that check lives in `prepare_data` (the only caller), which
raises `scalerError` before this total function is ever applied to an empty
selection, so here `rows` always has at least one row and the first-row
width is the (uniform) column count. -/
noncomputable def fitStandardScaler (rows : List (List ℝ)) : StandardScaler :=
  let F := (rows.headD []).length
  ⟨(List.range F).map (colMean rows), (List.range F).map (colStd rows)⟩

/-- `scaler.transform(rows)`: affine per-feature map `(x - mean) / scale`.
sklearn's `transform` first validates its input — the incoming feature count
must equal the fitted width `n_features_in_`, and there must be at least one
sample — raising `ValueError` otherwise.  Those checks live in
`prepare_data` (the only caller), as the `scalerOK` guard and the
empty-selection guard, which raise `scalerError` before this total function
is reached; on the inputs the embedding feeds it, every row and the fitted
mean/scale vectors have the same length, so the `zipWith` never
truncates. -/
noncomputable def transformScaler (s : StandardScaler) (rows : List (List ℝ)) :
    List (List ℝ) :=
  rows.map (fun r => List.zipWith (fun x p => (x - p.1) / p.2) r (s.mean.zip s.scale))

/-- Column 0 of `scaler.inverse_transform` applied to a dummy matrix whose
first column holds `x` (predict, lines 308-314): `x * scale_0 + mean_0`. -/
noncomputable def inversePrimary (s : StandardScaler) (x : ℝ) : ℝ :=
  x * s.scale.headD 1 + s.mean.headD 0

/-! ## `HybridLSTM` construction (lines 123-147) and the torch environment -/

/-- Number of scalar parameters torch initialises for a `HybridLSTM` of the
given sizes.  The exact count is immaterial to every claim (only that it is
positive and fixed by the architecture); it stands for the LSTM and linear
head weights. -/
def paramCount (inputSize hiddenSize : ℕ) : ℕ :=
  inputSize * hiddenSize + hiddenSize * hiddenSize + hiddenSize + 1

/-- Embeds a constructed `HybridLSTM(input_size, hidden_size, num_layers=2,
quantum_enabled, dropout=0.2)` together with its initial parameter vector. -/
structure HybridLSTM where
  input_size : ℕ
  hidden_size : ℕ
  num_layers : ℕ
  quantum_enabled : Bool
  weights : List ℝ

/-- Constructing `HybridLSTM(...)` in Python draws every initial parameter
from torch's ambient global generator (the source never calls
`torch.manual_seed`).  Modelled by an explicit stream `rng` and a cursor
`pos` into it: construction consumes `paramCount` fresh draws and advances
the cursor, exactly as sequential un-seeded constructions do. -/
def mkHybridLSTM (rng : ℕ → ℝ) (pos inputSize hiddenSize : ℕ) (q : Bool) :
    HybridLSTM × ℕ :=
  (⟨inputSize, hiddenSize, 2, q,
    (List.range (paramCount inputSize hiddenSize)).map (fun i => rng (pos + i))⟩,
   pos + paramCount inputSize hiddenSize)

/-- The two models constructed inside `benchmark_vs_classical` (lines
355-362), in source order: first the classical one (`model_type ==
'classical'`), then the quantum one, both with `hidden_size=64`, from the
same ambient generator. -/
def benchInitPair (rng : ℕ → ℝ) (pos inputSize : ℕ) : HybridLSTM × HybridLSTM :=
  let c := mkHybridLSTM rng pos inputSize 64 false
  let q := mkHybridLSTM rng c.2 inputSize 64 true
  (c.1, q.1)

/-- Abstraction of the torch numerics the source delegates to: `fit m e X y`
is the model after `e` optimiser steps of MSE training, `run m w` is the
scalar `model(w)` for one window (the `HybridLSTM.forward` pass). -/
structure TorchEnv where
  fit : HybridLSTM → ℕ → List Window → List ℝ → HybridLSTM
  run : HybridLSTM → Window → ℝ

/-! ## Orchestrator state: `QuantumLSTMForecaster` (lines 168-183) -/

/-- Errors raised by the orchestrator.  `schemaError` is the
`ValueError("None of the required features ...")` of `prepare_data` (line
191), `notTrained` the `ValueError("Model must be trained ...")` of
`predict` (line 275), `runtimeError` stands for the torch `IndexError`
raised when `X.shape[2]` is read off an empty (hence 1-dimensional) tensor,
and `scalerError` for the `ValueError` sklearn's `StandardScaler`
raises out of `fit_transform`/`transform` — on a zero-sample input
(`Found array with 0 sample(s)`) or on a feature count that differs from
the fitted `n_features_in_`. -/
inductive ForecastError where
  | schemaError : ForecastError
  | notTrained : ForecastError
  | runtimeError : ForecastError
  | scalerError : ForecastError
deriving DecidableEq

/-- A pandas DataFrame: named columns over row-major numeric data. -/
structure DataFrame where
  columns : List String
  rows : List (List ℝ)

/-- Embeds the `QuantumLSTMForecaster` instance state (`__init__`, lines
172-183). -/
structure QuantumLSTMForecaster where
  quantum_enabled : Bool
  model : Option HybridLSTM
  scaler : Option StandardScaler
  is_trained : Bool
  sequence_length : ℕ
  features : List String

/-- `QuantumLSTMForecaster.__init__(quantum_enabled)`: quantum flag is
conjoined with module-level `QUANTUM_AVAILABLE`; no model, no scaler,
untrained; `sequence_length = 24`; the four required feature columns. -/
def QuantumLSTMForecaster.init (quantumAvailable quantum_enabled : Bool) :
    QuantumLSTMForecaster :=
  ⟨quantum_enabled && quantumAvailable, none, none, false, 24,
   ["price", "volume", "volatility", "demand"]⟩

/-- A fresh orchestrator as built by the module-level
`forecaster = QuantumLSTMForecaster()` (defaults: quantum on, available). -/
def freshForecaster : QuantumLSTMForecaster :=
  QuantumLSTMForecaster.init true true

/-- `feature_cols = [col for col in self.features if col in data.columns]`
(line 189). -/
def featureCols (st : QuantumLSTMForecaster) (d : DataFrame) : List String :=
  st.features.filter (fun c => d.columns.contains c)

/-- `data[feature_cols].values` (line 194): every row projected to the
selected columns, in `feature_cols` order. -/
def selectFeatures (st : QuantumLSTMForecaster) (d : DataFrame) : List (List ℝ) :=
  d.rows.map (fun r =>
    (featureCols st d).map (fun c => r.getD (d.columns.findIdx (fun c2 => c2 == c)) 0))

/-- The scaler `prepare_data` uses on this call (lines 196-201): the stored
one if present, otherwise a fresh fit on the selected features of `d`. -/
noncomputable def scalerUsed (st : QuantumLSTMForecaster) (d : DataFrame) :
    StandardScaler :=
  match st.scaler with
  | none => fitStandardScaler (selectFeatures st d)
  | some s => s

/-- The scaled feature matrix `prepare_data` computes for table `d`. -/
noncomputable def scaledOf (st : QuantumLSTMForecaster) (d : DataFrame) :
    List (List ℝ) :=
  transformScaler (scalerUsed st d) (selectFeatures st d)

/-- The validation sklearn's `transform` applies against the stored scaler:
the incoming feature count must equal the fitted width `n_features_in_`.
Every scaler `fit` produces carries exactly `n_features_in_` means and
scales, so for the scalers the program itself stores the conjunction below
is that single check; it is vacuously true on the fit path (no previous
width to compare against). -/
def scalerOK (st : QuantumLSTMForecaster) (d : DataFrame) : Bool :=
  match st.scaler with
  | none => true
  | some s =>
      ((featureCols st d).length == s.mean.length) &&
      ((featureCols st d).length == s.scale.length)

/-- Embeds `QuantumLSTMForecaster.prepare_data` (lines 185-209): select the
required feature columns (schema error when none is present), scale them —
`fit_transform` on first use, storing the scaler, `transform` thereafter;
either sklearn call raises `ValueError` (`scalerError`) on a zero-row
selection, and `transform` also raises it when the selected width differs
from the fitted width (`scalerOK`) — then build the overlapping windows
`scaled[i : i+L]` and the targets `scaled[i+L, 0]` for
`i in range(len(scaled) - L)`.  Returns the sequences, the targets, and the
(possibly scaler-updated) instance state. -/
noncomputable def QuantumLSTMForecaster.prepare_data
    (st : QuantumLSTMForecaster) (d : DataFrame) :
    Except ForecastError ((List Window × List ℝ) × QuantumLSTMForecaster) :=
  if (featureCols st d).isEmpty then .error .schemaError else
  if (selectFeatures st d).isEmpty then .error .scalerError else
  if !(scalerOK st d) then .error .scalerError else
  let s := scalerUsed st d
  let scaled := transformScaler s (selectFeatures st d)
  let L := st.sequence_length
  .ok (((List.range (scaled.length - L)).map (fun i => (scaled.drop i).take L),
        (List.range (scaled.length - L)).map (fun i => (scaled.getD (i + L) []).getD 0 0)),
       { st with scaler := some s })

/-- The windows `prepare_data` yields (empty list on error). -/
noncomputable def windowsOf (st : QuantumLSTMForecaster) (d : DataFrame) : List Window :=
  match st.prepare_data d with
  | .ok p => p.1.1
  | .error _ => []

/-- The targets `prepare_data` yields (empty list on error). -/
noncomputable def targetsOf (st : QuantumLSTMForecaster) (d : DataFrame) : List ℝ :=
  match st.prepare_data d with
  | .ok p => p.1.2
  | .error _ => []

/-- Final orchestrator state of an operation, or `fallback` when the
operation raised (a raising Python method leaves `self` as it was at the
raise point; every raise modelled here happens before any mutation except
the scaler fit, which the state in the `.ok` branch carries). -/
def stateOf {α : Type} (r : Except ForecastError (α × QuantumLSTMForecaster))
    (fallback : QuantumLSTMForecaster) : QuantumLSTMForecaster :=
  match r with
  | .ok p => p.2
  | .error _ => fallback

/-! ## Prediction: autoregressive roll-forward and confidence interval -/

/-- Mean as numpy/torch compute it (sum over length; 0 for empty input only
because `0 / 0 = 0` in `ℝ` — never relied on). -/
noncomputable def npMean (l : List ℝ) : ℝ := l.sum / l.length

/-- Population variance, `np.var`. -/
noncomputable def npVar (l : List ℝ) : ℝ :=
  (l.map (fun x => (x - npMean l) ^ 2)).sum / l.length

/-- Empirical (population) standard deviation, `np.std` (line 327). -/
noncomputable def npStd (l : List ℝ) : ℝ := Real.sqrt (npVar l)

/-- Embeds `_calculate_confidence_interval` (lines 324-337): the symmetric
band `predictions ∓ 1.96 * np.std(predictions)`, returned as the pair
(lower bounds, upper bounds). -/
noncomputable def calculate_confidence_interval (preds : List ℝ) : List ℝ × List ℝ :=
  (preds.map (fun p => p - 1.96 * npStd preds),
   preds.map (fun p => p + 1.96 * npStd preds))

/-- The all-zero seed window `torch.zeros(1, self.sequence_length,
len(self.features))` used when the input yields no window (line 280; the
leading batch dimension of size 1 is dropped in this embedding). -/
def zeroWindow (L F : ℕ) : Window :=
  List.replicate L (List.replicate F (0 : ℝ))

/-- Embeds the autoregressive loop of `predict` (lines 289-305): `k` times,
predict the next scalar from the current window, build a synthetic row
holding that prediction in feature 0 and zeros elsewhere
(`new_row = torch.zeros(1, 1, width); new_row[0,0,0] = pred`), and slide the
window forward one step (`current_sequence[:, 1:, :]` concatenated with the
new row).  Returns the collected (still scaled) predictions and the final
window. -/
def rollForward (m : Window → ℝ) : ℕ → Window → List ℝ × Window
  | 0, w => ([], w)
  | k + 1, w =>
    let pred := m w
    let width := (w.headD []).length
    let w2 := w.drop 1 ++ [pred :: List.replicate (width - 1) 0]
    let r := rollForward m k w2
    (pred :: r.1, r.2)

/-- The forecast payload `predict` returns (lines 316-322); the wall-clock
`timestamp` field is outside the embedding. -/
structure PredictResult where
  predictions : List ℝ
  hours_ahead : ℕ
  model_type : String
  lower : List ℝ
  upper : List ℝ
  confidence : ℝ

/-- Embeds `QuantumLSTMForecaster.predict` (lines 273-322): refuse when
untrained; prepare the input (this can fit the scaler and raises on a
schema violation); take the last window, or the all-zero seed when there is
none; roll the model forward `hours_ahead` steps; inverse-transform the
primary feature of each prediction when a scaler is stored; attach the
confidence band.  Calling a `None` model would be a torch-level fault,
surfaced as `runtimeError` (unreachable from states `train` produces). -/
noncomputable def QuantumLSTMForecaster.predict (env : TorchEnv)
    (st : QuantumLSTMForecaster) (d : DataFrame) (hours_ahead : ℕ) :
    Except ForecastError (PredictResult × QuantumLSTMForecaster) :=
  if !st.is_trained then .error .notTrained else
  match st.prepare_data d with
  | .error e => .error e
  | .ok ((X, _), st2) =>
    match st2.model with
    | none => .error .runtimeError
    | some m =>
      let seed := if X.isEmpty then zeroWindow st2.sequence_length st2.features.length
                  else X.getLastD []
      let preds := (rollForward (env.run m) hours_ahead seed).1
      let rescaled := match st2.scaler with
        | some s => preds.map (inversePrimary s)
        | none => preds
      let ci := calculate_confidence_interval rescaled
      .ok ({ predictions := rescaled, hours_ahead := hours_ahead,
             model_type := if st2.quantum_enabled then "quantum_lstm" else "classical_lstm",
             lower := ci.1, upper := ci.2, confidence := 0.95 }, st2)

/-! ## Training and benchmarking -/

/-- `nn.MSELoss()` on two equal-length vectors (mean of squared errors). -/
noncomputable def mseLoss (preds targets : List ℝ) : ℝ :=
  (List.zipWith (fun p t => (p - t) ^ 2) preds targets).sum / preds.length

/-- Mean absolute error, `torch.mean(torch.abs(pred - target))`. -/
noncomputable def maeLoss (preds targets : List ℝ) : ℝ :=
  (List.zipWith (fun p t => |p - t|) preds targets).sum / preds.length

/-- The summary `train` returns (lines 264-269). -/
structure TrainResult where
  train_loss : ℝ
  val_loss : ℝ
  quantum_enabled : Bool
  epochs : ℕ

/-- Embeds `QuantumLSTMForecaster.train` (lines 211-271): prepare the data
(fitting the scaler on first use), construct a fresh `HybridLSTM` with
`hidden_size=64` from the ambient generator, split the windows 80/20 in
temporal order (`int(0.8 * len(X))`), run the epoch loop (abstracted into
`env.fit`), record the final train/validation MSE, store the model and mark
the instance trained.  Reading `X.shape[2]` off an empty window tensor is
the torch fault modelled as `runtimeError`. -/
noncomputable def QuantumLSTMForecaster.train (env : TorchEnv) (rng : ℕ → ℝ)
    (pos : ℕ) (st : QuantumLSTMForecaster) (d : DataFrame) (epochs : ℕ) :
    Except ForecastError (TrainResult × QuantumLSTMForecaster) :=
  match st.prepare_data d with
  | .error e => .error e
  | .ok ((X, y), st2) =>
    if X.isEmpty then .error .runtimeError else
    let F := ((X.headD []).headD []).length
    let m0 := (mkHybridLSTM rng pos F 64 st2.quantum_enabled).1
    let tsize := 8 * X.length / 10
    let m := env.fit m0 epochs (X.take tsize) (y.take tsize)
    .ok ({ train_loss := mseLoss ((X.take tsize).map (env.run m)) (y.take tsize),
           val_loss := mseLoss ((X.drop tsize).map (env.run m)) (y.drop tsize),
           quantum_enabled := st2.quantum_enabled, epochs := epochs },
         { st2 with model := some m, is_trained := true })

/-- Per-configuration metrics in a `BenchmarkReport` (lines 371-375). -/
structure BenchmarkSide where
  mse : ℝ
  mae : ℝ
  rmse : ℝ

/-- The report `benchmark_vs_classical` returns (lines 378-385). -/
structure BenchmarkReport where
  classical_lstm : BenchmarkSide
  quantum_lstm : BenchmarkSide
  improvement_percentage : ℝ
  quantum_advantage : Prop

/-- The quick-train-and-evaluate body of the benchmark loop (lines 355-375):
20 optimiser steps on the first 50 windows, then MSE/MAE/RMSE on the full
window set. -/
noncomputable def evalSide (env : TorchEnv) (m0 : HybridLSTM)
    (X : List Window) (y : List ℝ) : BenchmarkSide :=
  let m := env.fit m0 20 (X.take 50) (y.take 50)
  let preds := X.map (env.run m)
  ⟨mseLoss preds y, maeLoss preds y, Real.sqrt (mseLoss preds y)⟩

/-- Embeds `QuantumLSTMForecaster.benchmark_vs_classical` (lines 339-385):
prepare the test data (fitting the scaler on first use), construct and
quick-train a classical and then a quantum `HybridLSTM` (both
`hidden_size=64`, drawn sequentially from the ambient generator — the
source sets no seed), evaluate both on all windows, and report the metrics
with the relative MSE improvement.  The instance's `model` and `is_trained`
are never touched. -/
noncomputable def QuantumLSTMForecaster.benchmark_vs_classical (env : TorchEnv)
    (rng : ℕ → ℝ) (pos : ℕ) (st : QuantumLSTMForecaster) (d : DataFrame) :
    Except ForecastError (BenchmarkReport × QuantumLSTMForecaster) :=
  match st.prepare_data d with
  | .error e => .error e
  | .ok ((X, y), st2) =>
    if X.isEmpty then .error .runtimeError else
    let F := ((X.headD []).headD []).length
    let pair := benchInitPair rng pos F
    let c := evalSide env pair.1 X y
    let q := evalSide env pair.2 X y
    let imp := (c.mse - q.mse) / c.mse * 100
    .ok ({ classical_lstm := c, quantum_lstm := q,
           improvement_percentage := imp, quantum_advantage := imp > 0 }, st2)

/-! ## Helper lemmas -/

/-- The hyperbolic tangent is strictly below 1. -/
theorem tanh_lt_one (x : ℝ) : Real.tanh x < 1 := by
  rw [Real.tanh_eq_sinh_div_cosh, div_lt_one (Real.cosh_pos x), Real.sinh_eq,
    Real.cosh_eq]
  have h := Real.exp_pos (-x)
  linarith

/-- The hyperbolic tangent is strictly above -1. -/
theorem neg_one_lt_tanh (x : ℝ) : -1 < Real.tanh x := by
  rw [Real.tanh_eq_sinh_div_cosh, lt_div_iff₀ (Real.cosh_pos x), Real.sinh_eq,
    Real.cosh_eq]
  have h := Real.exp_pos x
  linarith

/-- A product of reals each of absolute value at most 1 has absolute value
at most 1. -/
theorem abs_list_prod_le_one :
    ∀ l : List ℝ, (∀ a ∈ l, |a| ≤ 1) → |l.prod| ≤ 1 := by
  intro l
  induction l with
  | nil => intro _; simp
  | cons a t ih =>
    intro h
    have ha : |a| ≤ 1 := h a (List.mem_cons_self a t)
    have ht : |t.prod| ≤ 1 := ih (fun b hb => h b (List.mem_cons_of_mem a hb))
    have hnn : (0 : ℝ) ≤ |t.prod| := abs_nonneg _
    rw [List.prod_cons, abs_mul]
    calc |a| * |t.prod| ≤ 1 * |t.prod| :=
          mul_le_mul_of_nonneg_right ha hnn
      _ = |t.prod| := one_mul _
      _ ≤ 1 := ht

/-- Membership in a `zipWith` image comes from applying the function to some
pair of elements. -/
theorem mem_zipWith_imp {α β γ : Type} (f : α → β → γ) :
    ∀ (l1 : List α) (l2 : List β) (y : γ), y ∈ List.zipWith f l1 l2 →
      ∃ a b, y = f a b := by
  intro l1
  induction l1 with
  | nil => intro l2 y h; simp at h
  | cons a t ih =>
    intro l2 y h
    cases l2 with
    | nil => simp at h
    | cons b t2 =>
      rcases List.mem_cons.mp h with h1 | h2
      · exact ⟨a, b, h1⟩
      · exact ih t2 y h2

/-- Indexing into a mapped list below its length applies the function to the
corresponding entry (whatever the two defaults are). -/
theorem getD_map_of_lt {α β : Type} (f : α → β) (l : List α) (i : ℕ)
    (da : α) (db : β) (h : i < l.length) :
    (l.map f).getD i db = f (l.getD i da) := by
  rw [List.getD_eq_getElem?_getD, List.getD_eq_getElem?_getD, List.getElem?_map,
    List.getElem?_eq_getElem h]
  simp

/-- The selected-feature matrix is empty exactly when the table has no
rows (it is a row-wise projection). -/
theorem selectFeatures_isEmpty (st : QuantumLSTMForecaster) (d : DataFrame) :
    (selectFeatures st d).isEmpty = d.rows.isEmpty := by
  unfold selectFeatures
  cases d.rows with
  | nil => rfl
  | cons a t => rfl

/-- Unfolding `prepare_data` on an input that passes all three guards: at
least one required feature column, at least one row, and a stored scaler
(if any) of the selected width.  The result is the windows, the targets
and the scaler-carrying state. -/
theorem prepare_data_eq (st : QuantumLSTMForecaster) (d : DataFrame)
    (hcols : (featureCols st d).isEmpty = false)
    (hrows : (selectFeatures st d).isEmpty = false)
    (hsok : scalerOK st d = true) :
    st.prepare_data d = .ok
      (((List.range ((scaledOf st d).length - st.sequence_length)).map
          (fun i => ((scaledOf st d).drop i).take st.sequence_length),
        (List.range ((scaledOf st d).length - st.sequence_length)).map
          (fun i => ((scaledOf st d).getD (i + st.sequence_length) []).getD 0 0)),
       { st with scaler := some (scalerUsed st d) }) := by
  unfold QuantumLSTMForecaster.prepare_data
  rw [hcols, hrows, hsok]
  rfl

/-- The scaled matrix has one row per input row. -/
theorem scaledOf_length (st : QuantumLSTMForecaster) (d : DataFrame) :
    (scaledOf st d).length = d.rows.length := by
  simp [scaledOf, transformScaler, selectFeatures]

/-- Every selected-feature row has exactly one entry per selected column. -/
theorem selectFeatures_row_length (st : QuantumLSTMForecaster) (d : DataFrame) :
    ∀ r ∈ selectFeatures st d, r.length = (featureCols st d).length := by
  intro r hr
  obtain ⟨r0, _, h⟩ := List.mem_map.mp hr
  rw [← h]
  simp

/-- A freshly fitted scaler carries one mean per column of the fitted
matrix's first row. -/
theorem fitStandardScaler_mean_length (rows : List (List ℝ)) :
    (fitStandardScaler rows).mean.length = (rows.headD []).length := by
  simp [fitStandardScaler]

/-- A freshly fitted scaler carries one scale per column of the fitted
matrix's first row. -/
theorem fitStandardScaler_scale_length (rows : List (List ℝ)) :
    (fitStandardScaler rows).scale.length = (rows.headD []).length := by
  simp [fitStandardScaler]

/-- Every scaled row keeps the selected-feature width, provided the stored
scaler (if any) passes sklearn's width validation (a freshly fitted one
always does). -/
theorem scaled_row_length (st : QuantumLSTMForecaster) (d : DataFrame)
    (hsok : scalerOK st d = true) :
    ∀ r ∈ scaledOf st d, r.length = (featureCols st d).length := by
  intro r hr
  obtain ⟨r0, hr0, hzip⟩ := List.mem_map.mp hr
  have hr0len : r0.length = (featureCols st d).length :=
    selectFeatures_row_length st d r0 hr0
  have hbound : (featureCols st d).length ≤ (scalerUsed st d).mean.length ∧
      (featureCols st d).length ≤ (scalerUsed st d).scale.length := by
    cases hsc : st.scaler with
    | some s =>
      unfold scalerOK at hsok
      rw [hsc] at hsok
      simp only [Bool.and_eq_true, beq_iff_eq] at hsok
      rw [scalerUsed, hsc, ← hsok.1, ← hsok.2]
      exact ⟨le_refl _, le_refl _⟩
    | none =>
      have hne : selectFeatures st d ≠ [] := by
        intro hnil
        rw [scaledOf, hnil] at hr
        simp [transformScaler] at hr
      obtain ⟨a, t, hsel⟩ := List.exists_cons_of_ne_nil hne
      have hha : (selectFeatures st d).headD [] = a := by rw [hsel]; rfl
      have halen : a.length = (featureCols st d).length :=
        selectFeatures_row_length st d a (hsel ▸ List.mem_cons_self a t)
      constructor
      · rw [scalerUsed, hsc, fitStandardScaler_mean_length, hha, halen]
      · rw [scalerUsed, hsc, fitStandardScaler_scale_length, hha, halen]
  rw [← hzip, List.length_zipWith, List.length_zip, hr0len]
  omega

/-! ## Claim C1: output arity of `QuantumVariationalLayer.forward` -/

/-- C1 counterexample.  The claim says `forward` always returns a vector of
the same width `W` as its input, on both paths.  On the quantum path with
`input_size = 5` the output is `torch.zeros_like(x[:, :4])` filled with the
four qubit expectations: width 4, not 5.  (The repository's own test
`test_forward_pass_shape_consistency` asserts exactly this `min(4, ·)`
width.) -/
theorem claim_C1_counterexample :
    (QuantumVariationalLayer.forward ⟨5, true, [], []⟩ [0, 0, 0, 0, 0]).length = 4 ∧
    ([(0 : ℝ), 0, 0, 0, 0]).length = 5 :=
  ⟨rfl, rfl⟩

/-- C1 (amended).  `forward` returns `min(4, input_size)` channels on the
quantum path — surplus channels are dropped, not passed through — and
`input_size` channels on the classical path, where every channel is the
image of the affine-plus-`tanh` map (no channel is passed through
unchanged in general). -/
theorem claim_C1_theorem (l : QuantumVariationalLayer) (x : List ℝ)
    (hw : l.weight.length = l.input_size) (hb : l.bias.length = l.input_size) :
    (l.forward x).length =
      if l.quantum_enabled then min 4 l.input_size else l.input_size := by
  unfold QuantumVariationalLayer.forward
  cases hq : l.quantum_enabled with
  | true =>
    simp [quantumForward, QuantumVariationalLayer.n_qubits]
  | false =>
    simp [classicalForward, hw, hb]

/-- C1 witness: a concrete classical layer of width 2 with identity weights;
the amended width formula instantiated there. -/
theorem claim_C1_witness :
    (([[(1 : ℝ), 0], [0, 1]] : List (List ℝ)).length = 2 ∧
      ([(0 : ℝ), 0]).length = 2) ∧
    (QuantumVariationalLayer.forward ⟨2, false, [[1, 0], [0, 1]], [0, 0]⟩ [5, 6]).length =
      if (⟨2, false, [[1, 0], [0, 1]], [0, 0]⟩ : QuantumVariationalLayer).quantum_enabled
        then min 4 2 else 2 :=
  ⟨⟨rfl, rfl⟩, claim_C1_theorem ⟨2, false, [[1, 0], [0, 1]], [0, 0]⟩ [5, 6] rfl rfl⟩

/-! ## Claim C3: boundedness of the transform's output -/

/-- C3 counterexample.  The claim says every output channel lies in the open
interval (-1, 1) on the quantum path as well.  But at the all-zero input the
circuit is the identity on `|0…0⟩` and every Z expectation equals exactly 1:
channel 0 of the quantum path is `cos 0 = 1`, which is not `< 1`. -/
theorem claim_C3_counterexample :
    (QuantumVariationalLayer.forward ⟨8, true, [], []⟩ (List.replicate 8 0)).getD 0 0 = 1 ∧
    ¬ (QuantumVariationalLayer.forward ⟨8, true, [], []⟩ (List.replicate 8 0)).getD 0 0 < 1 := by
  have h1 : (QuantumVariationalLayer.forward ⟨8, true, [], []⟩
      (List.replicate 8 0)).getD 0 0 = 1 := by
    show (quantumForward (min 4 8) (List.replicate 8 0)).getD 0 0 = 1
    simp [quantumForward, zExpectation, List.range_succ, Real.cos_zero]
  exact ⟨h1, by rw [h1]; exact lt_irrefl 1⟩

/-- C3 (amended).  On the classical path every output channel lies strictly
inside (-1, 1) (it is a `tanh` value); on the quantum path every output
channel lies in the closed interval [-1, 1] (it is a Z expectation, a
product of cosines), and the bound is attained — at the all-zero input the
channels equal 1. -/
theorem claim_C3_theorem :
    (∀ (w : List (List ℝ)) (b x : List ℝ), ∀ y ∈ classicalForward w b x, -1 < y ∧ y < 1) ∧
    (∀ (n : ℕ) (x : List ℝ), ∀ y ∈ quantumForward n x, -1 ≤ y ∧ y ≤ 1) := by
  constructor
  · intro w b x y hy
    obtain ⟨row, bi, hEq⟩ := mem_zipWith_imp _ w b y hy
    rw [hEq]
    exact ⟨neg_one_lt_tanh _, tanh_lt_one _⟩
  · intro n x y hy
    obtain ⟨j, _, hEq⟩ := List.mem_map.mp hy
    have habs : |y| ≤ 1 := by
      rw [← hEq]
      refine abs_list_prod_le_one _ ?_
      intro a ha
      obtain ⟨t, _, hta⟩ := List.mem_map.mp ha
      rw [← hta]
      exact Real.abs_cos_le_one t
    exact abs_le.mp habs

/-- C3 witness: the bounds instantiated on a concrete channel of each path
(classical layer `[[0]], [0]` on input `[0]`; one-qubit quantum path on
input `[0]`). -/
theorem claim_C3_witness :
    (-1 < Real.tanh (dot [0] [0] + 0) ∧ Real.tanh (dot [0] [0] + 0) < 1) ∧
    (-1 ≤ zExpectation [0] 0 ∧ zExpectation [0] 0 ≤ 1) :=
  ⟨claim_C3_theorem.1 [[0]] [0] [0] _ (by simp [classicalForward]),
   claim_C3_theorem.2 1 [0] _ (by simp [quantumForward])⟩

/-! ## Claim C2: shape invariant and targets of `prepare_data` -/

/-- C2 counterexample.  The claim asserts the `max(M - L, 0)`-window shape
for *any* table with `M` rows that has a required feature column.  At
`M = 0` it therefore demands 0 windows returned — but the program raises
instead: `StandardScaler` refuses a zero-sample matrix (`ValueError: Found
array with 0 sample(s)`), so `prepare_data` on a zero-row price table
propagates sklearn's error and returns nothing. -/
theorem claim_C2_counterexample :
    freshForecaster.prepare_data ⟨["price"], []⟩ = .error .scalerError := by
  rfl

/-- C2 (amended).  On a table with `M ≥ 1` rows having at least one of the
required feature columns, and whose stored scaler (if any) passes sklearn's
width validation — true of every scaler the class itself fits —
`prepare_data` yields exactly `M - L` windows (natural subtraction, i.e.
`max (M-L) 0`) with `L = sequence_length`, the same number of targets,
every window has `L` rows of width `F` (the number of selected feature
columns), and target `i` is the scaled primary feature — column 0 of the
scaled matrix — at row `i + L`.  On a zero-row table, or with a
width-mismatched stored scaler, it raises sklearn's `ValueError` instead. -/
theorem claim_C2_theorem (st : QuantumLSTMForecaster) (d : DataFrame)
    (hcols : (featureCols st d).isEmpty = false)
    (hrows : d.rows.isEmpty = false)
    (hsok : scalerOK st d = true) :
    (windowsOf st d).length = d.rows.length - st.sequence_length ∧
    (targetsOf st d).length = d.rows.length - st.sequence_length ∧
    (∀ w ∈ windowsOf st d, w.length = st.sequence_length ∧
      ∀ r ∈ w, r.length = (featureCols st d).length) ∧
    (∀ i, i < (targetsOf st d).length →
      (targetsOf st d).getD i 0 =
        ((scaledOf st d).getD (i + st.sequence_length) []).getD 0 0) := by
  have hrows2 : (selectFeatures st d).isEmpty = false := by
    rw [selectFeatures_isEmpty]
    exact hrows
  have hpe := prepare_data_eq st d hcols hrows2 hsok
  have hwin : windowsOf st d =
      (List.range ((scaledOf st d).length - st.sequence_length)).map
        (fun i => ((scaledOf st d).drop i).take st.sequence_length) := by
    unfold windowsOf
    rw [hpe]
  have htgt : targetsOf st d =
      (List.range ((scaledOf st d).length - st.sequence_length)).map
        (fun i => ((scaledOf st d).getD (i + st.sequence_length) []).getD 0 0) := by
    unfold targetsOf
    rw [hpe]
  have hlen := scaledOf_length st d
  refine ⟨?_, ?_, ?_, ?_⟩
  · rw [hwin, List.length_map, List.length_range, hlen]
  · rw [htgt, List.length_map, List.length_range, hlen]
  · intro w hw
    rw [hwin] at hw
    obtain ⟨i, hi, hwi⟩ := List.mem_map.mp hw
    rw [List.mem_range] at hi
    constructor
    · rw [← hwi, List.length_take, List.length_drop]
      omega
    · intro r hr
      rw [← hwi] at hr
      exact scaled_row_length st d hsok r
        (List.mem_of_mem_drop (List.mem_of_mem_take hr))
  · intro i hi
    rw [htgt] at hi ⊢
    rw [List.length_map, List.length_range] at hi
    rw [getD_map_of_lt _ _ _ 0 0 (by rw [List.length_range]; exact hi)]
    have hr : (List.range ((scaledOf st d).length - st.sequence_length)).getD i 0 = i := by
      rw [List.getD_eq_getElem?_getD, List.getElem?_range hi]
      rfl
    rw [hr]

/-- C2 witness: a fresh orchestrator with window length 2 on a three-row
one-column table: one window of shape `[2, 1]`, one target equal to the
scaled price at row 2. -/
theorem claim_C2_witness :
    ((featureCols { freshForecaster with sequence_length := 2 }
        ⟨["price"], [[1], [2], [3]]⟩).isEmpty = false ∧
      (DataFrame.mk ["price"] [[1], [2], [3]]).rows.isEmpty = false ∧
      scalerOK { freshForecaster with sequence_length := 2 }
        ⟨["price"], [[1], [2], [3]]⟩ = true) ∧
    ((windowsOf { freshForecaster with sequence_length := 2 }
        ⟨["price"], [[1], [2], [3]]⟩).length = 3 - 2 ∧
      (targetsOf { freshForecaster with sequence_length := 2 }
        ⟨["price"], [[1], [2], [3]]⟩).length = 3 - 2 ∧
      (∀ w ∈ windowsOf { freshForecaster with sequence_length := 2 }
          ⟨["price"], [[1], [2], [3]]⟩, w.length = 2 ∧
        ∀ r ∈ w, r.length = (featureCols { freshForecaster with sequence_length := 2 }
          ⟨["price"], [[1], [2], [3]]⟩).length) ∧
      (∀ i, i < (targetsOf { freshForecaster with sequence_length := 2 }
          ⟨["price"], [[1], [2], [3]]⟩).length →
        (targetsOf { freshForecaster with sequence_length := 2 }
          ⟨["price"], [[1], [2], [3]]⟩).getD i 0 =
          ((scaledOf { freshForecaster with sequence_length := 2 }
            ⟨["price"], [[1], [2], [3]]⟩).getD (i + 2) []).getD 0 0)) :=
  ⟨⟨rfl, rfl, rfl⟩, claim_C2_theorem _ _ rfl rfl rfl⟩

/-! ## Claim C6: behaviour of `prepare_data` on short tables -/

/-- C6 counterexample.  The claim says `prepare_data` fails with
`InsufficientDataError` whenever the table has at most `sequence_length`
rows.  The source has no such error: on a one-row table (with
`sequence_length = 24`) the windowing loop `range(len - 24)` is simply
empty and the call returns empty sequences and targets — an empty result,
not an exception. -/
theorem claim_C6_counterexample :
    freshForecaster.prepare_data ⟨["price"], [[5]]⟩ =
      .ok (([], []),
        { freshForecaster with
            scaler := some (scalerUsed freshForecaster ⟨["price"], [[5]]⟩) }) := by
  rfl

/-- C6 (amended).  `prepare_data` never raises an insufficient-data error.
On a table with between 1 and `sequence_length` rows (at least one required
feature column present, and the stored scaler — if any — of the selected
width, as every scaler the class itself fits is), it returns zero windows
and zero targets, still fitting and storing the scaler when none was
stored.  Its only failures are the schema `ValueError` (no required feature
column) and sklearn's `ValueError` (`scalerError`: zero-row table, or a
feature-width mismatch with the stored scaler) — neither is the
`InsufficientDataError` the spec describes, and neither fires merely
because `M ≤ sequence_length`. -/
theorem claim_C6_theorem (st : QuantumLSTMForecaster) (d : DataFrame)
    (hcols : (featureCols st d).isEmpty = false)
    (hrows : d.rows.isEmpty = false)
    (hsok : scalerOK st d = true)
    (hlen : d.rows.length ≤ st.sequence_length) :
    st.prepare_data d = .ok (([], []),
      { st with scaler := some (scalerUsed st d) }) := by
  have hrows2 : (selectFeatures st d).isEmpty = false := by
    rw [selectFeatures_isEmpty]
    exact hrows
  rw [prepare_data_eq st d hcols hrows2 hsok]
  have h0 : (scaledOf st d).length - st.sequence_length = 0 := by
    rw [scaledOf_length]
    omega
  rw [h0]
  rfl

/-- C6 witness: a fresh orchestrator on a two-row table with two feature
columns (1 ≤ 2 ≤ 24): the empty-ok result instantiated. -/
theorem claim_C6_witness :
    ((featureCols freshForecaster ⟨["price", "volume"], [[1, 2], [3, 4]]⟩).isEmpty = false ∧
      (DataFrame.mk ["price", "volume"] [[1, 2], [3, 4]]).rows.isEmpty = false ∧
      scalerOK freshForecaster ⟨["price", "volume"], [[1, 2], [3, 4]]⟩ = true ∧
      (2 : ℕ) ≤ 24) ∧
    freshForecaster.prepare_data ⟨["price", "volume"], [[1, 2], [3, 4]]⟩ =
      .ok (([], []),
        { freshForecaster with
            scaler := some (scalerUsed freshForecaster
              ⟨["price", "volume"], [[1, 2], [3, 4]]⟩) }) :=
  ⟨⟨rfl, rfl, rfl, by norm_num⟩,
   claim_C6_theorem freshForecaster ⟨["price", "volume"], [[1, 2], [3, 4]]⟩ rfl rfl rfl
     (by norm_num [freshForecaster, QuantumLSTMForecaster.init])⟩

/-! ## Claim C4: the synthetic rows of the autoregressive roll-forward -/

/-- C4 counterexample.  The claim says each synthetic timestep holds every
non-primary feature at its last observed value.  Rolling one step from the
window `[[5, 7, 7, 7]]` (last observed non-primary values all 7) with a
model that predicts 1 produces the synthetic row `[1, 0, 0, 0]`: the
non-primary features are zeroed (`torch.zeros` row with only index 0
overwritten), and 0 is not the last observed value 7. -/
theorem claim_C4_counterexample :
    (rollForward (fun _ => (1 : ℝ)) 1 [[5, 7, 7, 7]]).2 = [[1, 0, 0, 0]] ∧
    ((0 : ℝ) ≠ 7) :=
  ⟨rfl, by norm_num⟩

/-- C4 (amended).  During the roll-forward, each synthetic timestep carries
the model's new prediction in the primary feature and zeros — not the last
observed values — in every non-primary feature; the window slides forward
by one position each step, and this repeats exactly `hours_ahead` times:
after `k ≤ L` steps the window consists of the surviving `L - k` original
rows followed by the `k` synthetic rows `[pred, 0, …, 0]`, and exactly `k`
predictions were emitted. -/
theorem claim_C4_theorem (m : Window → ℝ) (F : ℕ) (hF : 1 ≤ F) :
    ∀ (k : ℕ) (w : Window), (∀ r ∈ w, r.length = F) → k ≤ w.length →
      (rollForward m k w).1.length = k ∧
      (rollForward m k w).2 = w.drop k ++
        (rollForward m k w).1.map (fun p => p :: List.replicate (F - 1) (0 : ℝ)) := by
  intro k
  induction k with
  | zero =>
    intro w _ _
    exact ⟨rfl, by simp [rollForward]⟩
  | succ k ih =>
    intro w hw hk
    obtain ⟨a, t, rfl⟩ : ∃ a t, w = a :: t := by
      cases w with
      | nil => simp at hk
      | cons a t => exact ⟨a, t, rfl⟩
    have ha : a.length = F := hw a (List.mem_cons_self a t)
    have hstep : rollForward m (k + 1) (a :: t) =
        (m (a :: t) :: (rollForward m k (t ++ [m (a :: t) :: List.replicate (F - 1) 0])).1,
         (rollForward m k (t ++ [m (a :: t) :: List.replicate (F - 1) 0])).2) := by
      simp only [rollForward, List.headD_cons, List.drop_succ_cons, List.drop_zero, ha]
    have hw2 : ∀ r ∈ t ++ [m (a :: t) :: List.replicate (F - 1) (0 : ℝ)], r.length = F := by
      intro r hr
      rcases List.mem_append.mp hr with h1 | h2
      · exact hw r (List.mem_cons_of_mem a h1)
      · rw [List.mem_singleton.mp h2]
        simp
        omega
    have hk2 : k ≤ (t ++ [m (a :: t) :: List.replicate (F - 1) (0 : ℝ)]).length := by
      simp only [List.length_cons] at hk
      simp only [List.length_append, List.length_cons, List.length_nil]
      omega
    obtain ⟨ih1, ih2⟩ := ih (t ++ [m (a :: t) :: List.replicate (F - 1) 0]) hw2 hk2
    rw [hstep]
    refine ⟨by simp [ih1], ?_⟩
    rw [ih2]
    rw [List.drop_append_of_le_length (by simp only [List.length_cons] at hk; omega)]
    simp [List.append_assoc, List.drop_succ_cons]

/-- C4 witness: one roll-forward step on the concrete window `[[5,7,7,7]]`
with the constant-1 model. -/
theorem claim_C4_witness :
    ((1 : ℕ) ≤ 4 ∧ (∀ r ∈ [[(5 : ℝ), 7, 7, 7]], r.length = 4) ∧
      (1 : ℕ) ≤ [[(5 : ℝ), 7, 7, 7]].length) ∧
    ((rollForward (fun _ => (1 : ℝ)) 1 [[5, 7, 7, 7]]).1.length = 1 ∧
      (rollForward (fun _ => (1 : ℝ)) 1 [[5, 7, 7, 7]]).2 =
        [[(5 : ℝ), 7, 7, 7]].drop 1 ++
          (rollForward (fun _ => (1 : ℝ)) 1 [[5, 7, 7, 7]]).1.map
            (fun p => p :: List.replicate (4 - 1) (0 : ℝ))) :=
  ⟨⟨by norm_num, fun r hr => by rw [List.mem_singleton.mp hr]; rfl, by norm_num⟩,
   claim_C4_theorem (fun _ => (1 : ℝ)) 4 (by norm_num) 1 [[5, 7, 7, 7]]
     (fun r hr => by rw [List.mem_singleton.mp hr]; rfl) (by norm_num)⟩

/-! ## Claim C5: untrained-state guard on `predict` and `benchmark_vs_classical` -/

/-- Every error `prepare_data` itself raises is the schema error or
sklearn's scaler error — never the untrained guard and never the torch
fault. -/
theorem prepare_data_error_kind (st : QuantumLSTMForecaster) (d : DataFrame)
    (e : ForecastError) (h : st.prepare_data d = .error e) :
    e = .schemaError ∨ e = .scalerError := by
  unfold QuantumLSTMForecaster.prepare_data at h
  cases hc : (featureCols st d).isEmpty with
  | true =>
    rw [hc] at h
    simp only [if_true, Except.error.injEq] at h
    exact Or.inl h.symm
  | false =>
    rw [hc] at h
    simp only [Bool.false_eq_true, if_false] at h
    cases hr : (selectFeatures st d).isEmpty with
    | true =>
      rw [hr] at h
      simp only [if_true, Except.error.injEq] at h
      exact Or.inr h.symm
    | false =>
      rw [hr] at h
      simp only [Bool.false_eq_true, if_false] at h
      cases hok : scalerOK st d with
      | false =>
        rw [hok] at h
        simp only [Bool.not_false, if_true, Except.error.injEq] at h
        exact Or.inr h.symm
      | true =>
        rw [hok] at h
        simp at h

/-- Concrete trivial torch environment (training is the identity, every
model output is 0); used to instantiate theorems at concrete inputs. -/
def env0 : TorchEnv := ⟨fun m _ _ _ => m, fun _ _ => 0⟩

/-- Concrete 25-row single-feature price table: one full window of length
24 plus one target row. -/
def d25 : DataFrame := ⟨["price"], List.replicate 25 [1]⟩

/-- C5 counterexample.  The claim says invoking `benchmark_vs_classical`
on an untrained orchestrator raises `NotTrainedError`, and that on a fresh
forecaster both operations fail until `train` has completed.  But the
method performs no trained-state check: on a fresh (untrained) forecaster
with 25 rows of data it runs to completion and returns a report. -/
theorem claim_C5_counterexample :
    freshForecaster.is_trained = false ∧
    (freshForecaster.benchmark_vs_classical env0 (fun _ => 0) 0 d25).isOk = true :=
  ⟨rfl, rfl⟩

/-- C5 (amended).  `predict` on an untrained orchestrator immediately
raises `NotTrainedError` (before any data preparation or model work), but
`benchmark_vs_classical` has no trained-state guard: it never raises
`NotTrainedError` in any state (its only failures are the schema error
from `prepare_data` and the torch fault on an empty window set). -/
theorem claim_C5_theorem :
    (∀ (env : TorchEnv) (st : QuantumLSTMForecaster) (d : DataFrame) (k : ℕ),
      st.is_trained = false → st.predict env d k = .error .notTrained) ∧
    (∀ (env : TorchEnv) (rng : ℕ → ℝ) (pos : ℕ) (st : QuantumLSTMForecaster)
      (d : DataFrame), st.benchmark_vs_classical env rng pos d ≠ .error .notTrained) := by
  constructor
  · intro env st d k h
    unfold QuantumLSTMForecaster.predict
    rw [h]
    rfl
  · intro env rng pos st d h
    unfold QuantumLSTMForecaster.benchmark_vs_classical at h
    cases hp : st.prepare_data d with
    | error e =>
      rw [hp] at h
      simp only [Except.error.injEq] at h
      rcases prepare_data_error_kind st d e hp with he | he <;>
        rw [he] at h <;> exact ForecastError.noConfusion h
    | ok p =>
      obtain ⟨⟨X, y⟩, st2⟩ := p
      rw [hp] at h
      dsimp only at h
      cases hX : X.isEmpty with
      | true =>
        rw [hX] at h
        simp only [if_true, Except.error.injEq] at h
        exact ForecastError.noConfusion h
      | false =>
        rw [hX] at h
        simp at h

/-- C5 witness: the predict guard on a fresh forecaster, and the absence of
the guard on `benchmark_vs_classical`, at concrete inputs. -/
theorem claim_C5_witness :
    (freshForecaster.predict env0 d25 3 = .error .notTrained) ∧
    (freshForecaster.benchmark_vs_classical env0 (fun _ => 0) 0 d25 ≠
      .error .notTrained) :=
  ⟨claim_C5_theorem.1 env0 freshForecaster d25 3 rfl,
   claim_C5_theorem.2 env0 (fun _ => 0) 0 freshForecaster d25⟩

/-! ## Claim C8: initialisation of the two benchmark models -/

/-- Head of a mapped range. -/
theorem headD_map_range (g : ℕ → ℝ) (n : ℕ) (hn : 0 < n) :
    ((List.range n).map g).headD 0 = g 0 := by
  cases n with
  | zero => omega
  | succ k =>
    rw [List.range_succ_eq_map]
    rfl

/-- The initial weight draws of the classical benchmark model. -/
theorem benchInitPair_weights_fst (rng : ℕ → ℝ) (pos F : ℕ) :
    (benchInitPair rng pos F).1.weights =
      (List.range (paramCount F 64)).map (fun i => rng (pos + i)) := by
  simp [benchInitPair, mkHybridLSTM]

/-- The initial weight draws of the quantum benchmark model: they start
after the draws the classical construction consumed. -/
theorem benchInitPair_weights_snd (rng : ℕ → ℝ) (pos F : ℕ) :
    (benchInitPair rng pos F).2.weights =
      (List.range (paramCount F 64)).map
        (fun i => rng (pos + paramCount F 64 + i)) := by
  simp [benchInitPair, mkHybridLSTM]

/-- C8 counterexample.  The claim says the two benchmark models start from
the same initial weights because an identical seed is used.  The source
sets no seed at all: both constructions draw fresh values from the ambient
generator, so with the generator stream `i ↦ i` the classical model's
first weight is draw 0 while the quantum model's is draw 4225 (the draws
the classical construction already consumed) — the initial weights
differ. -/
theorem claim_C8_counterexample :
    (benchInitPair (fun i => (i : ℝ)) 0 1).1.weights.headD 0 = 0 ∧
    (benchInitPair (fun i => (i : ℝ)) 0 1).2.weights.headD 0 = 4225 ∧
    (benchInitPair (fun i => (i : ℝ)) 0 1).1.weights.headD 0 ≠
      (benchInitPair (fun i => (i : ℝ)) 0 1).2.weights.headD 0 := by
  have hpos : 0 < paramCount 1 64 := by norm_num [paramCount]
  have h1 : (benchInitPair (fun i => (i : ℝ)) 0 1).1.weights.headD 0 = 0 := by
    rw [benchInitPair_weights_fst, headD_map_range _ _ hpos]
    norm_num
  have h2 : (benchInitPair (fun i => (i : ℝ)) 0 1).2.weights.headD 0 = 4225 := by
    rw [benchInitPair_weights_snd, headD_map_range _ _ hpos]
    norm_num [paramCount]
  exact ⟨h1, h2, by rw [h1, h2]; norm_num⟩

/-- C8 (amended).  `benchmark_vs_classical` constructs its two models with
identical architecture (same `input_size`, `hidden_size = 64`, same
`num_layers`), differing only in the quantum flag — but with no fixed
seed: the classical model consumes the next `paramCount` draws of the
ambient generator and the quantum model the `paramCount` draws after
those, so whenever the generator stream is injective the two initial
weight vectors differ. -/
theorem claim_C8_theorem (rng : ℕ → ℝ) (pos F : ℕ) :
    (benchInitPair rng pos F).1.input_size = (benchInitPair rng pos F).2.input_size ∧
    (benchInitPair rng pos F).1.hidden_size = 64 ∧
    (benchInitPair rng pos F).2.hidden_size = 64 ∧
    (benchInitPair rng pos F).1.num_layers = (benchInitPair rng pos F).2.num_layers ∧
    (benchInitPair rng pos F).1.quantum_enabled = false ∧
    (benchInitPair rng pos F).2.quantum_enabled = true ∧
    (Function.Injective rng →
      (benchInitPair rng pos F).1.weights ≠ (benchInitPair rng pos F).2.weights) := by
  refine ⟨by simp [benchInitPair, mkHybridLSTM], by simp [benchInitPair, mkHybridLSTM],
    by simp [benchInitPair, mkHybridLSTM], by simp [benchInitPair, mkHybridLSTM],
    by simp [benchInitPair, mkHybridLSTM], by simp [benchInitPair, mkHybridLSTM], ?_⟩
  intro hinj heq
  have hpos : 0 < paramCount F 64 := by
    unfold paramCount
    omega
  have hhead := congrArg (fun l => l.headD (0 : ℝ)) heq
  simp only at hhead
  rw [benchInitPair_weights_fst, benchInitPair_weights_snd,
    headD_map_range _ _ hpos, headD_map_range _ _ hpos] at hhead
  have := hinj hhead
  omega

/-- C8 witness: the architecture equalities and the distinct-weights
consequence instantiated at the injective stream `i ↦ i`, cursor 0, input
width 1. -/
theorem claim_C8_witness :
    (benchInitPair (fun i => (i : ℝ)) 0 1).1.input_size =
      (benchInitPair (fun i => (i : ℝ)) 0 1).2.input_size ∧
    (benchInitPair (fun i => (i : ℝ)) 0 1).1.weights ≠
      (benchInitPair (fun i => (i : ℝ)) 0 1).2.weights :=
  ⟨(claim_C8_theorem (fun i => (i : ℝ)) 0 1).1,
   (claim_C8_theorem (fun i => (i : ℝ)) 0 1).2.2.2.2.2.2
     (fun _ _ hab => Nat.cast_injective hab)⟩

/-! ## State lemmas for `predict`, `train`, `benchmark_vs_classical` -/

/-- The state a successful `prepare_data` returns differs from the input
state only in carrying the used scaler. -/
theorem prepare_data_ok_state (st : QuantumLSTMForecaster) (d : DataFrame)
    (X : List Window) (y : List ℝ) (st2 : QuantumLSTMForecaster)
    (h : st.prepare_data d = .ok ((X, y), st2)) :
    st2 = { st with scaler := some (scalerUsed st d) } := by
  unfold QuantumLSTMForecaster.prepare_data at h
  cases hc : (featureCols st d).isEmpty with
  | true =>
    rw [hc] at h
    simp at h
  | false =>
    rw [hc] at h
    simp only [Bool.false_eq_true, if_false] at h
    cases hr : (selectFeatures st d).isEmpty with
    | true =>
      rw [hr] at h
      simp at h
    | false =>
      rw [hr] at h
      simp only [Bool.false_eq_true, if_false] at h
      cases hok : scalerOK st d with
      | false =>
        rw [hok] at h
        simp at h
      | true =>
        rw [hok] at h
        simp only [Bool.not_true, Bool.false_eq_true, if_false, Except.ok.injEq,
          Prod.mk.injEq] at h
        exact h.2.symm

/-- A stored scaler is what `scalerUsed` returns. -/
theorem scalerUsed_some (st : QuantumLSTMForecaster) (d : DataFrame)
    (s : StandardScaler) (hs : st.scaler = some s) : scalerUsed st d = s := by
  unfold scalerUsed
  rw [hs]

/-- With no stored scaler, `scalerUsed` is a fresh fit on the selected
features. -/
theorem scalerUsed_none (st : QuantumLSTMForecaster) (d : DataFrame)
    (hs : st.scaler = none) :
    scalerUsed st d = fitStandardScaler (selectFeatures st d) := by
  unfold scalerUsed
  rw [hs]

/-- A stored scaler survives `prepare_data` unchanged (it is reused, not
refit). -/
theorem prepare_keeps_scaler (st : QuantumLSTMForecaster) (d : DataFrame)
    (X : List Window) (y : List ℝ) (st2 : QuantumLSTMForecaster)
    (s : StandardScaler) (hs : st.scaler = some s)
    (h : st.prepare_data d = .ok ((X, y), st2)) : st2.scaler = some s := by
  rw [prepare_data_ok_state st d X y st2 h]
  simp [scalerUsed_some st d s hs]

/-- A stored scaler survives `train` unchanged, whether the call succeeds
or raises. -/
theorem train_keeps_scaler (env : TorchEnv) (rng : ℕ → ℝ) (pos : ℕ)
    (st : QuantumLSTMForecaster) (d : DataFrame) (e : ℕ) (s : StandardScaler)
    (hs : st.scaler = some s) :
    (stateOf (st.train env rng pos d e) st).scaler = some s := by
  unfold QuantumLSTMForecaster.train
  cases hp : st.prepare_data d with
  | error e2 =>
    exact hs
  | ok p =>
    obtain ⟨⟨X, y⟩, st2⟩ := p
    dsimp only
    cases hX : X.isEmpty with
    | true =>
      exact hs
    | false =>
      exact prepare_keeps_scaler st d X y st2 s hs hp

/-- A stored scaler survives `predict` unchanged, whether the call succeeds
or raises. -/
theorem predict_keeps_scaler (env : TorchEnv) (st : QuantumLSTMForecaster)
    (d : DataFrame) (k : ℕ) (s : StandardScaler) (hs : st.scaler = some s) :
    (stateOf (st.predict env d k) st).scaler = some s := by
  unfold QuantumLSTMForecaster.predict
  cases ht : st.is_trained with
  | false =>
    exact hs
  | true =>
    dsimp only
    cases hp : st.prepare_data d with
    | error e =>
      exact hs
    | ok p =>
      obtain ⟨⟨X, y⟩, st2⟩ := p
      dsimp only
      cases hm : st2.model with
      | none =>
        exact hs
      | some m =>
        simp only [stateOf]
        exact prepare_keeps_scaler st d X y st2 s hs hp

/-- The rescaled roll-forward predictions a trained `predict` produces
when the input yields no window: the roll starts from the all-zero seed
window of shape `[L, F]` and each prediction is inverse-transformed on the
primary feature. -/
noncomputable def zeroSeedPreds (env : TorchEnv) (m : HybridLSTM)
    (s : StandardScaler) (L F k : ℕ) : List ℝ :=
  ((rollForward (env.run m) k (zeroWindow L F)).1).map (inversePrimary s)

/-- On a trained forecaster whose input table yields no window (at most
`sequence_length` rows), `predict` does not raise: it rolls forward from
the all-zero seed window and returns the full payload, leaving the state
untouched. -/
theorem predict_on_short_table (env : TorchEnv) (st : QuantumLSTMForecaster)
    (d : DataFrame) (k : ℕ) (m : HybridLSTM) (s : StandardScaler)
    (ht : st.is_trained = true) (hm : st.model = some m) (hs : st.scaler = some s)
    (hcols : (featureCols st d).isEmpty = false)
    (hrows : d.rows.isEmpty = false)
    (hsok : scalerOK st d = true)
    (hlen : d.rows.length ≤ st.sequence_length) :
    st.predict env d k = .ok
      ({ predictions := zeroSeedPreds env m s st.sequence_length st.features.length k,
         hours_ahead := k,
         model_type := if st.quantum_enabled then "quantum_lstm" else "classical_lstm",
         lower := (calculate_confidence_interval
           (zeroSeedPreds env m s st.sequence_length st.features.length k)).1,
         upper := (calculate_confidence_interval
           (zeroSeedPreds env m s st.sequence_length st.features.length k)).2,
         confidence := 0.95 }, st) := by
  have hrows2 : (selectFeatures st d).isEmpty = false := by
    rw [selectFeatures_isEmpty]
    exact hrows
  have hpe := prepare_data_eq st d hcols hrows2 hsok
  have h0 : (scaledOf st d).length - st.sequence_length = 0 := by
    rw [scaledOf_length]
    omega
  rw [h0] at hpe
  simp only [List.range_zero, List.map_nil] at hpe
  rw [scalerUsed_some st d s hs] at hpe
  have hst2 : { st with scaler := some s } = st := by rw [← hs]
  rw [hst2] at hpe
  unfold QuantumLSTMForecaster.predict
  rw [ht, hpe]
  simp only [Bool.not_true, Bool.false_eq_true, if_false]
  rw [hm, hs]
  rfl

/-- The state a successful `benchmark_vs_classical` returns is the
`prepare_data` state: only the scaler can have changed. -/
theorem benchmark_ok_state (env : TorchEnv) (rng : ℕ → ℝ) (pos : ℕ)
    (st : QuantumLSTMForecaster) (d : DataFrame) (r : BenchmarkReport)
    (st2 : QuantumLSTMForecaster)
    (h : st.benchmark_vs_classical env rng pos d = .ok (r, st2)) :
    st2 = { st with scaler := some (scalerUsed st d) } := by
  unfold QuantumLSTMForecaster.benchmark_vs_classical at h
  cases hp : st.prepare_data d with
  | error e =>
    rw [hp] at h
    simp at h
  | ok p =>
    obtain ⟨⟨X, y⟩, st3⟩ := p
    rw [hp] at h
    dsimp only at h
    cases hX : X.isEmpty with
    | true =>
      rw [hX] at h
      simp at h
    | false =>
      rw [hX] at h
      simp only [Bool.false_eq_true, if_false, Except.ok.injEq, Prod.mk.injEq] at h
      rw [← h.2]
      exact prepare_data_ok_state st d X y st3 hp

/-- Every successful `predict` result carries exactly the
`_calculate_confidence_interval` band of its own predictions. -/
theorem predict_ok_ci (env : TorchEnv) (st : QuantumLSTMForecaster)
    (d : DataFrame) (k : ℕ) (res : PredictResult) (st2 : QuantumLSTMForecaster)
    (h : st.predict env d k = .ok (res, st2)) :
    res.lower = (calculate_confidence_interval res.predictions).1 ∧
    res.upper = (calculate_confidence_interval res.predictions).2 := by
  unfold QuantumLSTMForecaster.predict at h
  cases ht : st.is_trained with
  | false =>
    rw [ht] at h
    simp at h
  | true =>
    rw [ht] at h
    simp only [Bool.not_true, Bool.false_eq_true, if_false] at h
    cases hp : st.prepare_data d with
    | error e =>
      rw [hp] at h
      simp at h
    | ok p =>
      obtain ⟨⟨X, y⟩, st3⟩ := p
      rw [hp] at h
      dsimp only at h
      cases hm : st3.model with
      | none =>
        rw [hm] at h
        simp at h
      | some m =>
        rw [hm] at h
        simp only [Except.ok.injEq, Prod.mk.injEq] at h
        rw [← h.1]
        exact ⟨rfl, rfl⟩

/-! ## Concrete instances used by witnesses -/

/-- A concrete already-constructed model handle. -/
def hl0 : HybridLSTM := ⟨4, 64, 2, false, []⟩

/-- A concrete identity-like scaler (zero means, unit scales). -/
def s0 : StandardScaler := ⟨[0, 0, 0, 0], [1, 1, 1, 1]⟩

/-- A concrete trained forecaster with window length 1 (every field as a
`train` call would leave it, with the stored model `hl0` and scaler `s0`). -/
def stTrained : QuantumLSTMForecaster :=
  { freshForecaster with
      is_trained := true, model := some hl0, scaler := some s0,
      sequence_length := 1 }

/-- A concrete torch environment whose model output is one more than the
primary feature of the window's last row, so successive roll-forward
predictions differ. -/
def env1 : TorchEnv := ⟨fun m _ _ _ => m, fun _ w => (w.getLastD []).getD 0 0 + 1⟩

/-- A concrete one-row table carrying all four required feature columns
(at most `sequence_length` rows for `stTrained`, and matching the 4-wide
scaler `s0`). -/
def d4row : DataFrame :=
  ⟨["price", "volume", "volatility", "demand"], [[5, 6, 7, 8]]⟩

/-! ## Claim C9: `predict` on a trained forecaster with too few rows -/

/-- C7.  In every result `predict` returns, the bounds are the symmetric
band `predictions[i] ∓ 1.96·σ` with `σ = np.std(predictions)` over the
`hours_ahead` rolled-forward (rescaled) predictions; hence at every index
`lower < prediction < upper` when `σ > 0`, and all three coincide when
`σ = 0`. -/
theorem claim_C7_theorem (env : TorchEnv) (st : QuantumLSTMForecaster)
    (d : DataFrame) (k : ℕ) (res : PredictResult) (st2 : QuantumLSTMForecaster)
    (h : st.predict env d k = .ok (res, st2)) (i : ℕ)
    (hi : i < res.predictions.length) :
    res.lower = res.predictions.map (fun p => p - 1.96 * npStd res.predictions) ∧
    res.upper = res.predictions.map (fun p => p + 1.96 * npStd res.predictions) ∧
    (0 < npStd res.predictions →
      res.lower.getD i 0 < res.predictions.getD i 0 ∧
      res.predictions.getD i 0 < res.upper.getD i 0) ∧
    (npStd res.predictions = 0 →
      res.lower.getD i 0 = res.predictions.getD i 0 ∧
      res.upper.getD i 0 = res.predictions.getD i 0) := by
  obtain ⟨hlo, hup⟩ := predict_ok_ci env st d k res st2 h
  have hlo2 : res.lower =
      res.predictions.map (fun p => p - 1.96 * npStd res.predictions) := hlo
  have hup2 : res.upper =
      res.predictions.map (fun p => p + 1.96 * npStd res.predictions) := hup
  refine ⟨hlo2, hup2, ?_, ?_⟩
  · intro hσ
    rw [hlo2, hup2, getD_map_of_lt _ _ _ 0 0 hi, getD_map_of_lt _ _ _ 0 0 hi]
    have hz : 0 < 1.96 * npStd res.predictions := by
      have : (0 : ℝ) < 1.96 := by norm_num
      exact mul_pos this hσ
    constructor <;> linarith
  · intro hσ
    rw [hlo2, hup2, getD_map_of_lt _ _ _ 0 0 hi, getD_map_of_lt _ _ _ 0 0 hi, hσ]
    constructor <;> ring

/-- The concrete payload `predict` returns for `stTrained` under `env1` on
the four-column one-row table `d4row`, two steps ahead (its predictions
evaluate to `[1, 2]`). -/
noncomputable def res7 : PredictResult :=
  { predictions := zeroSeedPreds env1 hl0 s0 stTrained.sequence_length
      stTrained.features.length 2,
    hours_ahead := 2,
    model_type := if stTrained.quantum_enabled then "quantum_lstm" else "classical_lstm",
    lower := (calculate_confidence_interval (zeroSeedPreds env1 hl0 s0
      stTrained.sequence_length stTrained.features.length 2)).1,
    upper := (calculate_confidence_interval (zeroSeedPreds env1 hl0 s0
      stTrained.sequence_length stTrained.features.length 2)).2,
    confidence := 0.95 }

/-- The two roll-forward predictions of `res7` evaluate to 1 and 2. -/
theorem res7_predictions : res7.predictions = [1, 2] := by
  show zeroSeedPreds env1 hl0 s0 stTrained.sequence_length
      stTrained.features.length 2 = [1, 2]
  show zeroSeedPreds env1 hl0 s0 1 4 2 = [1, 2]
  simp only [zeroSeedPreds, zeroWindow, rollForward, env1, s0]
  norm_num [inversePrimary]

/-- The standard deviation of the predictions `[1, 2]` is positive. -/
theorem npStd_res7_pos : 0 < npStd res7.predictions := by
  rw [res7_predictions]
  unfold npStd npVar npMean
  apply Real.sqrt_pos.mpr
  norm_num

/-- C7 witness: the band ordering at index 0 of the concrete forecast
`res7`, whose σ is positive. -/
theorem claim_C7_witness :
    (stTrained.predict env1 d4row 2 = .ok (res7, stTrained) ∧
      0 < res7.predictions.length ∧ 0 < npStd res7.predictions) ∧
    (res7.lower.getD 0 0 < res7.predictions.getD 0 0 ∧
      res7.predictions.getD 0 0 < res7.upper.getD 0 0) :=
  ⟨⟨predict_on_short_table env1 stTrained d4row 2 hl0 s0 rfl rfl rfl rfl rfl rfl
      (by norm_num [stTrained, freshForecaster, QuantumLSTMForecaster.init, d4row]),
    by rw [res7_predictions]; norm_num, npStd_res7_pos⟩,
   (claim_C7_theorem env1 stTrained d4row 2 res7 stTrained
      (predict_on_short_table env1 stTrained d4row 2 hl0 s0 rfl rfl rfl rfl rfl rfl
        (by norm_num [stTrained, freshForecaster, QuantumLSTMForecaster.init, d4row]))
      0 (by rw [res7_predictions]; norm_num)).2.2.1 npStd_res7_pos⟩

/-! ## Claim C10: what `benchmark_vs_classical` does and does not mutate -/

/-- C10.  A successful `benchmark_vs_classical` on a forecaster with an
unfit scaler leaves `model` and `is_trained` exactly as they were, but fits
and stores the scaler from the benchmark's test data; and that stored
scaler is then reused, not refit, by any subsequent `train` or `predict`
call on the resulting instance (their final states keep the very same
scaler). -/
theorem claim_C10_theorem (env : TorchEnv) (rng : ℕ → ℝ) (pos : ℕ)
    (st : QuantumLSTMForecaster) (d d2 : DataFrame) (e k : ℕ)
    (hnone : st.scaler = none)
    (hok : (st.benchmark_vs_classical env rng pos d).isOk = true) :
    (stateOf (st.benchmark_vs_classical env rng pos d) st).model = st.model ∧
    (stateOf (st.benchmark_vs_classical env rng pos d) st).is_trained = st.is_trained ∧
    (stateOf (st.benchmark_vs_classical env rng pos d) st).scaler =
      some (fitStandardScaler (selectFeatures st d)) ∧
    (stateOf ((stateOf (st.benchmark_vs_classical env rng pos d) st).train env rng pos d2 e)
        (stateOf (st.benchmark_vs_classical env rng pos d) st)).scaler =
      (stateOf (st.benchmark_vs_classical env rng pos d) st).scaler ∧
    (stateOf ((stateOf (st.benchmark_vs_classical env rng pos d) st).predict env d2 k)
        (stateOf (st.benchmark_vs_classical env rng pos d) st)).scaler =
      (stateOf (st.benchmark_vs_classical env rng pos d) st).scaler := by
  obtain ⟨r, st2, hb⟩ : ∃ r st2,
      st.benchmark_vs_classical env rng pos d = .ok (r, st2) := by
    cases hbc : st.benchmark_vs_classical env rng pos d with
    | ok p => exact ⟨p.1, p.2, rfl⟩
    | error er =>
      simp only [Except.isOk, Except.toBool] at hok
      rw [hbc] at hok
      simp at hok
  have hst2 := benchmark_ok_state env rng pos st d r st2 hb
  have hsc : st2.scaler = some (fitStandardScaler (selectFeatures st d)) := by
    rw [hst2]
    simp [scalerUsed_none st d hnone]
  have hstate : stateOf (st.benchmark_vs_classical env rng pos d) st = st2 := by
    rw [hb]
    rfl
  rw [hstate]
  refine ⟨by rw [hst2], by rw [hst2], hsc, ?_, ?_⟩
  · rw [train_keeps_scaler env rng pos st2 d2 e _ hsc, hsc]
  · rw [predict_keeps_scaler env st2 d2 k _ hsc, hsc]

/-- C10 witness: a fresh forecaster benchmarked on the 25-row table, then
the scaler-stability consequences for a follow-up `train` and `predict` on
the same instance. -/
theorem claim_C10_witness :
    (freshForecaster.scaler = none ∧
      (freshForecaster.benchmark_vs_classical env0 (fun _ => 0) 0 d25).isOk = true) ∧
    ((stateOf (freshForecaster.benchmark_vs_classical env0 (fun _ => 0) 0 d25)
        freshForecaster).model = freshForecaster.model ∧
      (stateOf (freshForecaster.benchmark_vs_classical env0 (fun _ => 0) 0 d25)
        freshForecaster).is_trained = freshForecaster.is_trained ∧
      (stateOf (freshForecaster.benchmark_vs_classical env0 (fun _ => 0) 0 d25)
        freshForecaster).scaler =
        some (fitStandardScaler (selectFeatures freshForecaster d25)) ∧
      (stateOf ((stateOf (freshForecaster.benchmark_vs_classical env0 (fun _ => 0) 0 d25)
            freshForecaster).train env0 (fun _ => 0) 0 d25 3)
          (stateOf (freshForecaster.benchmark_vs_classical env0 (fun _ => 0) 0 d25)
            freshForecaster)).scaler =
        (stateOf (freshForecaster.benchmark_vs_classical env0 (fun _ => 0) 0 d25)
          freshForecaster).scaler ∧
      (stateOf ((stateOf (freshForecaster.benchmark_vs_classical env0 (fun _ => 0) 0 d25)
            freshForecaster).predict env0 d25 2)
          (stateOf (freshForecaster.benchmark_vs_classical env0 (fun _ => 0) 0 d25)
            freshForecaster)).scaler =
        (stateOf (freshForecaster.benchmark_vs_classical env0 (fun _ => 0) 0 d25)
          freshForecaster).scaler) :=
  ⟨⟨rfl, rfl⟩,
   claim_C10_theorem env0 (fun _ => 0) 0 freshForecaster d25 d25 3 2 rfl rfl⟩

end QLSTM
